import Mathlib

/-
  Shallow embedding of src/stomp_ws/stomp.py (STOMP-over-WebSocket client).

  Python strings are modelled as List Char; Python dicts (which preserve
  insertion order and overwrite in place) as association lists with
  dictInsert / dictGet.  Exceptions are modelled with PyExn, and the
  WebSocket transport as the opened flag plus the list of frames written.
-/

/-- Characters of a string literal, the List Char view of a Python str. -/
def chars (s : String) : List Char := s.data

/-- Python str.split(LF): split on every line-feed, keeping empty pieces;
the result is never empty. (stomp.py line 209) -/
def splitLF : List Char → List (List Char)
  | [] => [[]]
  | c :: cs =>
    if c = '\x0A' then [] :: splitLF cs
    else
      match splitLF cs with
      | [] => [[c]]
      | l :: ls => (c :: l) :: ls

/-- ASCII whitespace stripped by Python str.strip (Unicode spaces elided:
no frame in this development contains them). -/
def isPySpace (c : Char) : Bool :=
  c = ' ' || c = '\x09' || c = '\x0A' || c = '\x0B' || c = '\x0C' || c = '\x0D'

/-- Python str.strip(): drop leading and trailing whitespace. (line 211) -/
def pyStrip (l : List Char) : List Char :=
  ((l.dropWhile isPySpace).reverse.dropWhile isPySpace).reverse

/-- Python line.split(COLON, 1): none when the line has no colon, otherwise
the part before the first colon and everything after it. (line 218) -/
def splitHeaderLine : List Char → Option (List Char × List Char)
  | [] => none
  | c :: cs =>
    if c = ':' then some ([], cs)
    else
      match splitHeaderLine cs with
      | some (k, v) => some (c :: k, v)
      | none => none

/-- Python dict assignment d[k] = v: replace in place when the key exists,
append otherwise. -/
def dictInsert (d : List (List Char × α)) (k : List Char) (v : α) :
    List (List Char × α) :=
  match d with
  | [] => [(k, v)]
  | (k', v') :: rest =>
    if k' = k then (k, v) :: rest else (k', v') :: dictInsert rest k v

/-- Python dict lookup d.get(k): first (and only) binding of the key. -/
def dictGet (d : List (List Char × α)) (k : List Char) : Option α :=
  match d with
  | [] => none
  | (k', v) :: rest => if k' = k then some v else dictGet rest k

/-- Headers: an insertion-ordered string-to-string dict. -/
abbrev Headers := List (List Char × List Char)

/-- The header-consuming while loop of _parse_message (lines 215-222):
consume lines until the first empty line or the end, dict-inserting every
line that has a colon and silently dropping the rest; return the headers
together with the remaining lines (the empty line included when present). -/
def parseHeaders : List (List Char) → Headers → Headers × List (List Char)
  | [], acc => (acc, [])
  | l :: ls, acc =>
    if l = [] then (acc, l :: ls)
    else
      match splitHeaderLine l with
      | some (k, v) => parseHeaders ls (dictInsert acc k v)
      | none => parseHeaders ls acc

/-- Dispatcher._parse_message (lines 196-229): split the frame on LF,
strip line 0 into the command, consume headers until the empty line, and
take the single line after the empty line as body, with None when that
line is exactly the NULL octet or the index is out of range. -/
def parse_message (frame : List Char) :
    List Char × Headers × Option (List Char) :=
  let lines := splitLF frame
  let command := pyStrip (lines.headD [])
  let hr := parseHeaders (lines.drop 1) []
  let body : Option (List Char) :=
    match hr.2 with
    | _ :: x :: _ => if x = ['\x00'] then none else some x
    | _ => none
  (command, hr.1, body)

/-- Python exceptions this client can meet. -/
inductive PyExn where
  | keyError : PyExn
  | indexError : PyExn
  | other : List Char → PyExn
deriving DecidableEq

/-- Guarded list indexing: Python l[n], raising IndexError out of range. -/
def listGetE (l : List α) (n : Nat) : Except PyExn α :=
  match l.get? n with
  | some x => .ok x
  | none => .error .indexError

/-- Dispatcher._parse_message with every index access explicit (raising
IndexError where Python would): lines[0] at line 211 and lines[i+1] at
line 227, the latter guarded by i + 1 < len(lines), i.e. 1 < rest.length. -/
def parse_messageE (frame : List Char) :
    Except PyExn (List Char × Headers × Option (List Char)) :=
  let lines := splitLF frame
  match listGetE lines 0 with
  | .error e => .error e
  | .ok line0 =>
    let command := pyStrip line0
    let hr := parseHeaders (lines.drop 1) []
    if 1 < hr.2.length then
      match listGetE hr.2 1 with
      | .error e => .error e
      | .ok x =>
        .ok (command, hr.1, if x = ['\x00'] then none else some x)
    else
      .ok (command, hr.1, none)

/-- Dispatcher._transmit frame construction (lines 169-185): command line,
one key:value line per header in insertion order, a blank line, the body
when present, and the terminating NULL octet. -/
def mkFrame (command : List Char) (headers : Headers)
    (msg : Option (List Char)) : List Char :=
  (command ++ ['\x0A'])
    ++ (headers.map (fun kv => kv.1 ++ [':'] ++ kv.2 ++ ['\x0A'])).flatten
    ++ ['\x0A']
    ++ (match msg with | some m => m | none => [])
    ++ ['\x00']

/-- A subscription callback: Python callables may raise. -/
def PyCb : Type := Option (List Char) → Except PyExn Unit

/-- The observable state of one Stomp client plus its Dispatcher:
the transport opened flag, the connected flag, the callback registry of
Stomp.__init__ (line 42), and the frames written to the WebSocket. -/
structure ClientState (α : Type) where
  opened : Bool
  connected : Bool
  callback_registry : List (List Char × α)
  sentFrames : List (List Char)

/-- Console lines the client prints, the observable side channel. -/
inductive Output where
  | recvLog : List Char → Output
  | connectedLog : Output
  | errorLog : List Char → Output
  | errorDetails : List Char → Output
  | noCallbackWarning : List Char → Output
  | sendLog : List Char → Output
  | sendErrorLog : Output
deriving DecidableEq

def sCONNECTED : List Char := chars "CONNECTED"
def sERROR : List Char := chars "ERROR"
def sMESSAGE : List Char := chars "MESSAGE"
def sSEND : List Char := chars "SEND"
def sSUBSCRIBE : List Char := chars "SUBSCRIBE"
def sDestination : List Char := chars "destination"
def sContentLength : List Char := chars "content-length"
def sMessageKey : List Char := chars "message"
def sUnknownError : List Char := chars "Unknown error"
def sUnknown : List Char := chars "unknown"
def sId : List Char := chars "id"
def sAck : List Char := chars "ack"
def sClient : List Char := chars "client"

/-- Dispatcher._transmit (lines 164-194): build the frame and write it to
the WebSocket unconditionally; when the socket is closed the send raises
WebSocketConnectionClosedException, which is caught and logged. -/
def transmit (st : ClientState α) (command : List Char) (headers : Headers)
    (msg : Option (List Char)) : ClientState α × List Output :=
  let frame := mkFrame command headers msg
  if st.opened then
    ({ st with sentFrames := st.sentFrames ++ [frame] }, [.sendLog frame])
  else
    (st, [.sendLog frame, .sendErrorLog])

/-- SEND headers of Dispatcher.send (lines 273-275): destination and
content-length = str(len(message)), the code-point count of the message. -/
def send_headers (destination message : List Char) : Headers :=
  [(sDestination, destination), (sContentLength, Nat.toDigits 10 message.length)]

/-- Dispatcher.send (lines 269-277). -/
def dispatcher_send (st : ClientState α) (destination message : List Char) :
    ClientState α × List Output :=
  transmit st sSEND (send_headers destination message) (some message)

/-- SUBSCRIBE headers of Dispatcher.subscribe (lines 256-265); sub_id is
the time/uuid-based id, a parameter here since it is nondeterministic. -/
def subscribe_headers (sub_id destination : List Char) : Headers :=
  [(sId, sub_id), (sAck, sClient), (sDestination, destination)]

/-- Dispatcher.subscribe (lines 252-267). -/
def dispatcher_subscribe (st : ClientState α) (sub_id destination : List Char) :
    ClientState α × List Output :=
  transmit st sSUBSCRIBE (subscribe_headers sub_id destination) none

/-- Stomp.send (lines 68-72): delegate to the dispatcher, no state guard. -/
def stomp_send (st : ClientState α) (destination message : List Char) :
    ClientState α × List Output :=
  dispatcher_send st destination message

/-- Stomp.subscribe (lines 60-66): record the callback in the registry
(overwriting any earlier entry), then transmit a SUBSCRIBE frame. -/
def stomp_subscribe (st : ClientState α) (destination : List Char)
    (callback : α) (sub_id : List Char) : ClientState α × List Output :=
  let st1 :=
    { st with callback_registry := dictInsert st.callback_registry destination callback }
  dispatcher_subscribe st1 sub_id destination

/-- The callback the MESSAGE branch would call: headers[destination] looked
up in the registry; none models the KeyError of either lookup. (line 142) -/
def resolveCb (reg : List (List Char × α)) (headers : Headers) : Option α :=
  match dictGet headers sDestination with
  | none => none
  | some d => dictGet reg d

/-- headers.get(destination, unknown) of the warning message (line 144). -/
def destOrUnknown (headers : Headers) : List Char :=
  (dictGet headers sDestination).getD sUnknown

/-- The try/except KeyError block of the MESSAGE branch (lines 141-144):
any KeyError - missing destination header, unregistered destination, or a
KeyError raised by the callback itself - is caught and turned into the
warning; every other exception escapes. -/
def messageBranch (reg : List (List Char × PyCb)) (headers : Headers)
    (body : Option (List Char)) : Except PyExn (List Output) :=
  match resolveCb reg headers with
  | none => .ok [.noCallbackWarning (destOrUnknown headers)]
  | some cb =>
    match cb body with
    | .ok _ => .ok []
    | .error .keyError => .ok [.noCallbackWarning (destOrUnknown headers)]
    | .error e => .error e

/-- Dispatcher._on_message (lines 117-144): parse the frame, set connected
on CONNECTED, log on ERROR (body printed only when truthy, i.e. nonempty),
and on MESSAGE run the callback under the try/except KeyError. Returns the
new state, the console output, and the exception escaping the handler. -/
def on_message (st : ClientState PyCb) (message : List Char) :
    ClientState PyCb × List Output × Option PyExn :=
  let p := parse_message message
  let command := p.1
  let headers := p.2.1
  let body := p.2.2
  let st1 := if command = sCONNECTED then { st with connected := true } else st
  let out0 : List Output := [.recvLog message]
  let out1 : List Output := if command = sCONNECTED then [.connectedLog] else []
  let out2 : List Output :=
    if command = sERROR then
      .errorLog ((dictGet headers sMessageKey).getD sUnknownError)
        :: (match body with
            | some b => if b = [] then [] else [.errorDetails b]
            | none => [])
    else []
  if command = sMESSAGE then
    match messageBranch st1.callback_registry headers body with
    | .ok outs => (st1, out0 ++ out1 ++ out2 ++ outs, none)
    | .error e => (st1, out0 ++ out1 ++ out2, some e)
  else (st1, out0 ++ out1 ++ out2, none)

/-- Stomp.connect after the CONNECT transmission (lines 55-58): the caller
busy-waits while connected is False and then returns self.connected, so
it returns some true once connected and is still pending (none) otherwise;
it can never deliver false. -/
def connectReturn (st : ClientState α) : Option Bool :=
  if st.connected then some true else none

/-- UTF-8 byte length of a Python str, what the STOMP content-length
header is specified to carry. -/
def utf8Len (l : List Char) : Nat := (l.map Char.utf8Size).sum

/-! Helper lemmas about the split, strip and dict primitives. -/

theorem splitLF_ne_nil (l : List Char) : splitLF l ≠ [] := by
  induction l with
  | nil => simp [splitLF]
  | cons c cs ih =>
    simp only [splitLF]
    split
    · simp
    · split
      · simp
      · simp

theorem splitLF_no_lf (a : List Char) (ha : '\x0A' ∉ a) : splitLF a = [a] := by
  induction a with
  | nil => rfl
  | cons c cs ih =>
    have hc : c ≠ '\x0A' := by
      intro h
      exact ha (h ▸ List.mem_cons_self c cs)
    have hcs : '\x0A' ∉ cs := fun h => ha (List.mem_cons_of_mem c h)
    simp [splitLF, if_neg hc, ih hcs]

theorem splitLF_append_lf (a b : List Char) (ha : '\x0A' ∉ a) :
    splitLF (a ++ '\x0A' :: b) = a :: splitLF b := by
  induction a with
  | nil => simp [splitLF]
  | cons c cs ih =>
    have hc : c ≠ '\x0A' := by
      intro h
      exact ha (h ▸ List.mem_cons_self c cs)
    have hcs : '\x0A' ∉ cs := fun h => ha (List.mem_cons_of_mem c h)
    simp [splitLF, if_neg hc, ih hcs]

theorem splitHeaderLine_append (k v : List Char) (hk : ':' ∉ k) :
    splitHeaderLine (k ++ ':' :: v) = some (k, v) := by
  induction k with
  | nil => simp [splitHeaderLine]
  | cons c cs ih =>
    have hc : c ≠ ':' := by
      intro h
      exact hk (h ▸ List.mem_cons_self c cs)
    have hcs : ':' ∉ cs := fun h => hk (List.mem_cons_of_mem c h)
    simp [splitHeaderLine, if_neg hc, ih hcs]

theorem dictInsert_fresh (d : List (List Char × α)) (k : List Char) (v : α)
    (h : k ∉ d.map Prod.fst) : dictInsert d k v = d ++ [(k, v)] := by
  induction d with
  | nil => rfl
  | cons p rest ih =>
    have hp : p.1 ≠ k := by
      intro he
      exact h (by simp only [List.map_cons]; exact he ▸ List.mem_cons_self _ _)
    have hrest : k ∉ rest.map Prod.fst := by
      intro hm
      exact h (by simp only [List.map_cons]; exact List.mem_cons_of_mem _ hm)
    simp only [dictInsert, if_neg hp, ih hrest, List.cons_append]

theorem foldl_dictInsert_nodup (hs : Headers) (acc : Headers)
    (h : (acc.map Prod.fst ++ hs.map Prod.fst).Nodup) :
    hs.foldl (fun a kv => dictInsert a kv.1 kv.2) acc = acc ++ hs := by
  induction hs generalizing acc with
  | nil => simp
  | cons kv t ih =>
    obtain ⟨k, v⟩ := kv
    have hk : k ∉ acc.map Prod.fst := by
      intro hm
      rcases List.nodup_append.mp h with ⟨-, -, hdisj⟩
      exact hdisj hm (by simp)
    have hacc : ((acc ++ [(k, v)]).map Prod.fst ++ t.map Prod.fst).Nodup := by
      simpa [List.append_assoc] using h
    simp only [List.foldl_cons]
    rw [dictInsert_fresh acc k v hk, ih (acc ++ [(k, v)]) hacc, List.append_assoc]
    rfl

theorem dictInsert_dictInsert_same (r : List (List Char × α)) (k : List Char)
    (v1 v2 : α) : dictInsert (dictInsert r k v1) k v2 = dictInsert r k v2 := by
  induction r with
  | nil => simp [dictInsert]
  | cons p rest ih =>
    by_cases hp : p.1 = k
    · simp [dictInsert, hp]
    · simp [dictInsert, hp, ih]

theorem dictGet_dictInsert_self (r : List (List Char × α)) (k : List Char)
    (v : α) : dictGet (dictInsert r k v) k = some v := by
  induction r with
  | nil => simp [dictInsert, dictGet]
  | cons p rest ih =>
    by_cases hp : p.1 = k
    · simp [dictInsert, hp, dictGet]
    · simp [dictInsert, hp, dictGet, ih]

theorem parseHeaders_wf (hs : Headers) (ls : List (List Char)) (acc : Headers)
    (hh : ∀ kv ∈ hs, ':' ∉ kv.1) :
    parseHeaders ((hs.map fun kv => kv.1 ++ ':' :: kv.2) ++ ([] :: ls)) acc
      = (hs.foldl (fun a kv => dictInsert a kv.1 kv.2) acc, [] :: ls) := by
  induction hs generalizing acc with
  | nil => simp [parseHeaders]
  | cons kv t ih =>
    obtain ⟨k, v⟩ := kv
    have hk : ':' ∉ k := hh (k, v) (List.mem_cons_self _ _)
    have hne : ¬(k ++ ':' :: v = []) := by cases k <;> simp
    have ht : ∀ kv ∈ t, ':' ∉ kv.1 := fun kv hm => hh kv (List.mem_cons_of_mem _ hm)
    simp only [List.map_cons, List.cons_append, parseHeaders, if_neg hne,
      splitHeaderLine_append k v hk, List.foldl_cons]
    exact ih (dictInsert acc k v) ht

theorem splitLF_flat (hs : Headers) (tail : List Char)
    (hh : ∀ kv ∈ hs, '\x0A' ∉ kv.1 ∧ '\x0A' ∉ kv.2)
    (ht : '\x0A' ∉ tail) :
    splitLF ((hs.map fun kv => kv.1 ++ [':'] ++ kv.2 ++ ['\x0A']).flatten ++ '\x0A' :: tail)
      = (hs.map fun kv => kv.1 ++ ':' :: kv.2) ++ [[], tail] := by
  induction hs with
  | nil =>
    simp only [List.map_nil, List.flatten_nil, List.nil_append]
    rw [show ('\x0A' :: tail) = ([] : List Char) ++ '\x0A' :: tail from rfl,
      splitLF_append_lf [] tail (by simp), splitLF_no_lf tail ht]
  | cons kv t ih =>
    obtain ⟨k, v⟩ := kv
    have hkv := hh (k, v) (List.mem_cons_self _ _)
    have hks : '\x0A' ∉ k ++ ':' :: v := by
      intro hm
      rcases List.mem_append.mp hm with h1 | h2
      · exact hkv.1 h1
      · rcases List.mem_cons.mp h2 with h3 | h4
        · exact absurd h3 (by decide)
        · exact hkv.2 h4
    have hht : ∀ kv ∈ t, '\x0A' ∉ kv.1 ∧ '\x0A' ∉ kv.2 :=
      fun kv hm => hh kv (List.mem_cons_of_mem _ hm)
    have harr : ((k ++ [':'] ++ v ++ ['\x0A']) :: t.map (fun kv => kv.1 ++ [':'] ++ kv.2 ++ ['\x0A'])).flatten ++ '\x0A' :: tail
        = (k ++ ':' :: v) ++ '\x0A' :: ((t.map (fun kv => kv.1 ++ [':'] ++ kv.2 ++ ['\x0A'])).flatten ++ '\x0A' :: tail) := by
      simp [List.flatten_cons, List.append_assoc]
    simp only [List.map_cons, harr, splitLF_append_lf _ _ hks, ih hht, List.cons_append]

theorem mkFrame_rearrange (c : List Char) (hs : Headers) (b : Option (List Char)) :
    mkFrame c hs b
      = c ++ '\x0A' :: ((hs.map fun kv => kv.1 ++ [':'] ++ kv.2 ++ ['\x0A']).flatten
          ++ '\x0A' :: (b.getD [] ++ ['\x00'])) := by
  cases b <;> simp [mkFrame, List.append_assoc]

theorem stomp_subscribe_registry (st : ClientState α) (d : List Char) (cb : α)
    (sid : List Char) :
    (stomp_subscribe st d cb sid).1.callback_registry
      = dictInsert st.callback_registry d cb := by
  unfold stomp_subscribe dispatcher_subscribe transmit
  dsimp only
  split <;> rfl

/-! Claim theorems. -/

/-- Claim C1, counterexample: the round-trip fails as stated. Encoding the
SEND frame with body hello and decoding it does not give back body hello
(the trailing NULL octet is kept), and an empty-string body produces the
very same wire text as an absent body, so the two are not distinguishable
after encoding. -/
theorem c1_roundtrip_counterexample :
    parse_message (mkFrame sSEND [(sDestination, chars "/x")] (some (chars "hello")))
      ≠ (sSEND, [(sDestination, chars "/x")], some (chars "hello"))
    ∧ mkFrame (chars "C") [] (some (chars "")) = mkFrame (chars "C") [] none := by
  constructor
  · decide
  · rfl

/-- Claim C1, amended: for a command with no line-feed that is
strip-invariant, headers with colon-free line-feed-free distinct keys and
line-feed-free values, and an optional nonempty line-feed-free body,
decoding the encoded frame returns the command and headers exactly; an
absent body round-trips to absent, and a present body b round-trips to
b with the trailing NULL octet appended (not stripped). An empty-string
body is excluded: it encodes identically to an absent body. -/
theorem c1_roundtrip_amended (c : List Char) (hs : Headers) (b : Option (List Char))
    (hc : '\x0A' ∉ c) (hcs : pyStrip c = c)
    (hh : ∀ kv ∈ hs, '\x0A' ∉ kv.1 ∧ ':' ∉ kv.1 ∧ '\x0A' ∉ kv.2)
    (hnd : (hs.map Prod.fst).Nodup)
    (hb : ∀ s, b = some s → s ≠ [] ∧ '\x0A' ∉ s) :
    parse_message (mkFrame c hs b) = (c, hs, b.map (fun s => s ++ ['\x00'])) := by
  have htail : '\x0A' ∉ b.getD [] ++ ['\x00'] := by
    cases b with
    | none => decide
    | some s =>
      intro hm
      rcases List.mem_append.mp hm with h1 | h2
      · exact (hb s rfl).2 h1
      · exact absurd (List.mem_singleton.mp h2) (by decide)
  have hlines : splitLF (mkFrame c hs b)
      = c :: ((hs.map fun kv => kv.1 ++ ':' :: kv.2) ++ [[], b.getD [] ++ ['\x00']]) := by
    rw [mkFrame_rearrange, splitLF_append_lf _ _ hc,
      splitLF_flat hs _ (fun kv hm => ⟨(hh kv hm).1, (hh kv hm).2.2⟩) htail]
  have hph := parseHeaders_wf hs [b.getD [] ++ ['\x00']] []
    (fun kv hm => (hh kv hm).2.1)
  have hfold := foldl_dictInsert_nodup hs [] (by simpa using hnd)
  rw [parse_message]
  rw [hlines]
  simp only [List.headD_cons, List.drop_succ_cons, List.drop_zero, hcs]
  rw [hph, hfold]
  simp only [List.nil_append]
  cases b with
  | none => rfl
  | some s =>
    have hs1 : (s ++ ['\x00']) ≠ ['\x00'] := by
      intro he
      have hlen := congrArg List.length he
      simp at hlen
      exact (hb s rfl).1 hlen
    simp [hs1]

/-- Claim C1, witness for the amended round-trip at a concrete frame. -/
theorem c1_roundtrip_amended_witness :
    parse_message (mkFrame sSEND [(sDestination, chars "/x")] (some (chars "hi")))
      = (sSEND, [(sDestination, chars "/x")], some (chars "hi" ++ [ '\x00'])) := by
  have h := c1_roundtrip_amended sSEND [(sDestination, chars "/x")] (some (chars "hi"))
    (by decide) (by decide) (by decide) (by decide)
    (by intro s hs; cases hs; exact ⟨by decide, by decide⟩)
  simpa using h

/-- Claim C2: evaluating the code at the failing input. Parsing the frame
MESSAGE destination:/topic/x blank hello-NUL yields a body that still
carries the trailing NULL octet, so the registered callback is invoked
with hello-NUL, not with hello as the spec requires. -/
theorem c2_message_body_retains_null :
    parse_message (chars "MESSAGE\ndestination:/topic/x\n\nhello\x00")
      = (sMESSAGE, [(sDestination, chars "/topic/x")], some (chars "hello\x00"))
    ∧ chars "hello\x00" ≠ chars "hello" := by
  constructor
  · decide
  · decide

/-- Claim C3, counterexample: on a client whose transport is open but that
has not completed connect (connected = false, the state right after
construction), Stomp.send writes a SEND frame to the transport - the
transmission is not rejected and not a no-op. -/
theorem c3_send_before_connect_transmits :
    (stomp_send (⟨true, false, [], []⟩ : ClientState Unit) (chars "/topic/x")
        (chars "abc")).1.sentFrames
      = [mkFrame sSEND (send_headers (chars "/topic/x") (chars "abc")) (some (chars "abc"))]
    ∧ (stomp_send (⟨true, false, [], []⟩ : ClientState Unit) (chars "/topic/x")
        (chars "abc")).1.sentFrames ≠ [] := by
  refine ⟨rfl, ?_⟩
  decide

/-- Claim C3, amended: send and subscribe carry no connection-state guard:
called before connect() has completed (connected still false) on an open
transport, each writes its frame to the transport unconditionally. -/
theorem c3_send_subscribe_unguarded (st : ClientState α) (d m : List Char)
    (cb : α) (sid : List Char) (hop : st.opened = true)
    (_hconn : st.connected = false) :
    (stomp_send st d m).1.sentFrames
      = st.sentFrames ++ [mkFrame sSEND (send_headers d m) (some m)]
    ∧ (stomp_subscribe st d cb sid).1.sentFrames
      = st.sentFrames ++ [mkFrame sSUBSCRIBE (subscribe_headers sid d) none] := by
  constructor <;>
    simp [stomp_send, dispatcher_send, stomp_subscribe, dispatcher_subscribe, transmit, hop]

/-- Claim C3, witness at a concrete pre-connect state. -/
theorem c3_send_subscribe_unguarded_witness :
    (stomp_send (⟨true, false, [], []⟩ : ClientState Unit) (chars "/q")
        (chars "m")).1.sentFrames
      = [] ++ [mkFrame sSEND (send_headers (chars "/q") (chars "m")) (some (chars "m"))]
    ∧ (stomp_subscribe (⟨true, false, [], []⟩ : ClientState Unit) (chars "/q")
        () (chars "s1")).1.sentFrames
      = [] ++ [mkFrame sSUBSCRIBE (subscribe_headers (chars "s1") (chars "/q")) none] :=
  c3_send_subscribe_unguarded (⟨true, false, [], []⟩ : ClientState Unit)
    (chars "/q") (chars "m") () (chars "s1") rfl rfl

/-- Claim C4, counterexample: processing the frame ERROR message:bad creds
from a not-yet-connected client leaves connected false and the pending
connect() still blocked (connectReturn none): it does not unblock with
false, and no transition to any failed state happens. -/
theorem c4_error_frame_counterexample :
    (on_message (⟨true, false, [], []⟩ : ClientState PyCb)
        (chars "ERROR\nmessage:bad creds\n\n\x00")).1.connected = false
    ∧ connectReturn (on_message (⟨true, false, [], []⟩ : ClientState PyCb)
        (chars "ERROR\nmessage:bad creds\n\n\x00")).1 = none := by
  constructor
  · rfl
  · rfl

/-- Claim C4, amended: an inbound ERROR frame is only logged: it leaves
the whole client state unchanged and raises nothing, and since the
busy-wait in Stomp.connect only exits when connected is true, connect()
can never return false - a pending connect() keeps waiting. -/
theorem c4_error_frame_only_logged (st : ClientState PyCb) (msg : List Char)
    (hcmd : (parse_message msg).1 = sERROR) :
    (on_message st msg).1 = st ∧ (on_message st msg).2.2 = none
      ∧ ∀ s : ClientState PyCb, connectReturn s ≠ some false := by
  have h1 : ¬((parse_message msg).1 = sCONNECTED) := by rw [hcmd]; decide
  have h2 : ¬((parse_message msg).1 = sMESSAGE) := by rw [hcmd]; decide
  refine ⟨?_, ?_, ?_⟩
  · unfold on_message
    dsimp only
    rw [if_neg h1, if_neg h2, if_neg h1]
  · unfold on_message
    dsimp only
    rw [if_neg h1, if_neg h2]
  · intro s
    unfold connectReturn
    split <;> simp

/-- Claim C4, witness at the concrete ERROR frame of the spec scenario. -/
theorem c4_error_frame_only_logged_witness :
    (on_message (⟨true, false, [], []⟩ : ClientState PyCb)
        (chars "ERROR\nmessage:bad creds\n\n\x00")).1
      = (⟨true, false, [], []⟩ : ClientState PyCb)
    ∧ (on_message (⟨true, false, [], []⟩ : ClientState PyCb)
        (chars "ERROR\nmessage:bad creds\n\n\x00")).2.2 = none
    ∧ ∀ s : ClientState PyCb, connectReturn s ≠ some false :=
  c4_error_frame_only_logged (⟨true, false, [], []⟩ : ClientState PyCb)
    (chars "ERROR\nmessage:bad creds\n\n\x00") (by decide)

/-- Claim C5, counterexample: a lone line-feed heartbeat IS parsed as a
frame whose command is the empty string (with no headers and no body);
there is no distinct heartbeat case in the parser. -/
theorem c5_heartbeat_parsed_as_empty_command :
    parse_message (chars "\n") = (chars "", [], none) := by decide

/-- Claim C5, amended: the lone line-feed decodes to command = empty
string, and the dispatcher handles it only by falling through: the empty
command matches none of CONNECTED, ERROR, MESSAGE, so the heartbeat is
ignored (state unchanged, nothing raised, nothing invoked) rather than
being handled by a dedicated heartbeat case. -/
theorem c5_heartbeat_ignored_by_fallthrough (st : ClientState PyCb) :
    parse_message (chars "\n") = ([], [], none)
    ∧ on_message st (chars "\n") = (st, [Output.recvLog (chars "\n")], none) := by
  have hp : parse_message (chars "\n") = ([], [], none) := by decide
  refine ⟨hp, ?_⟩
  unfold on_message
  dsimp only
  rw [hp]
  simp only [if_neg (show ¬(([] : List Char) = sCONNECTED) by decide),
    if_neg (show ¬(([] : List Char) = sERROR) by decide),
    if_neg (show ¬(([] : List Char) = sMESSAGE) by decide)]
  rfl

/-- Claim C6: evaluating the code at the failing input. For the one-char
message e-acute, Dispatcher.send sets content-length to the string 1 (the
Python len, a code-point count) although the UTF-8 byte length of that
message is 2, whose decimal rendering would be 2: the header does not
carry the byte count for non-ASCII messages. -/
theorem c6_content_length_counts_codepoints :
    dictGet (send_headers (chars "/topic/x") [ 'é']) sContentLength
      = some (chars "1")
    ∧ utf8Len [ 'é'] = 2
    ∧ Nat.toDigits 10 (utf8Len [ 'é']) = chars "2" := by
  refine ⟨?_, ?_, ?_⟩ <;> decide

/-- Claim C7: subscribing to the same destination first with c1 and then
with c2 leaves the callback registry exactly as a single subscribe with c2
would, and any MESSAGE frame whose destination header is that destination
resolves to c2 (and only c2). -/
theorem c7_subscribe_overwrites_registry (st : ClientState α) (d : List Char)
    (c1 c2 : α) (sid1 sid2 : List Char) (h : Headers)
    (hd : dictGet h sDestination = some d) :
    (stomp_subscribe (stomp_subscribe st d c1 sid1).1 d c2 sid2).1.callback_registry
      = (stomp_subscribe st d c2 sid2).1.callback_registry
    ∧ resolveCb (stomp_subscribe (stomp_subscribe st d c1 sid1).1 d c2 sid2).1.callback_registry h
      = some c2 := by
  have h1 := stomp_subscribe_registry st d c1 sid1
  have h2 := stomp_subscribe_registry (stomp_subscribe st d c1 sid1).1 d c2 sid2
  have h3 := stomp_subscribe_registry st d c2 sid2
  rw [h2, h1, h3]
  constructor
  · exact dictInsert_dictInsert_same _ _ _ _
  · unfold resolveCb
    rw [hd]
    dsimp only
    rw [dictInsert_dictInsert_same]
    exact dictGet_dictInsert_self _ _ _

/-- Claim C7, witness at concrete callbacks 1 and 2. -/
theorem c7_subscribe_overwrites_registry_witness :
    (stomp_subscribe (stomp_subscribe (⟨true, true, [], []⟩ : ClientState Nat)
        (chars "/t") 1 (chars "a")).1 (chars "/t") 2 (chars "b")).1.callback_registry
      = (stomp_subscribe (⟨true, true, [], []⟩ : ClientState Nat)
        (chars "/t") 2 (chars "b")).1.callback_registry
    ∧ resolveCb (stomp_subscribe (stomp_subscribe (⟨true, true, [], []⟩ : ClientState Nat)
        (chars "/t") 1 (chars "a")).1 (chars "/t") 2 (chars "b")).1.callback_registry
        [(sDestination, chars "/t")]
      = some 2 :=
  c7_subscribe_overwrites_registry (⟨true, true, [], []⟩ : ClientState Nat)
    (chars "/t") 1 2 (chars "a") (chars "b") [(sDestination, chars "/t")] rfl

/-- Claim C8: an inbound MESSAGE frame whose destination has no registered
callback is discarded without reaching the transport layer as an
exception: the dispatch leaves the state unchanged, escapes with no
exception, and reports the no-callback warning. -/
theorem c8_unrouted_message_warns_no_raise (st : ClientState PyCb)
    (msg : List Char) (hcmd : (parse_message msg).1 = sMESSAGE)
    (hun : resolveCb st.callback_registry (parse_message msg).2.1 = none) :
    (on_message st msg).1 = st ∧ (on_message st msg).2.2 = none
      ∧ Output.noCallbackWarning (destOrUnknown (parse_message msg).2.1)
          ∈ (on_message st msg).2.1 := by
  have h1 : ¬((parse_message msg).1 = sCONNECTED) := by rw [hcmd]; decide
  have h2 : ¬((parse_message msg).1 = sERROR) := by rw [hcmd]; decide
  unfold on_message
  dsimp only
  rw [if_neg h1, if_pos hcmd, if_neg h1, if_neg h2]
  unfold messageBranch
  rw [hun]
  refine ⟨rfl, rfl, ?_⟩
  simp

/-- Claim C8, witness: the spec scenario frame against an empty registry. -/
theorem c8_unrouted_message_warns_no_raise_witness :
    (on_message (⟨true, true, [], []⟩ : ClientState PyCb)
        (chars "MESSAGE\ndestination:/topic/x\n\nhello\x00")).1
      = (⟨true, true, [], []⟩ : ClientState PyCb)
    ∧ (on_message (⟨true, true, [], []⟩ : ClientState PyCb)
        (chars "MESSAGE\ndestination:/topic/x\n\nhello\x00")).2.2 = none
    ∧ Output.noCallbackWarning (destOrUnknown
        (parse_message (chars "MESSAGE\ndestination:/topic/x\n\nhello\x00")).2.1)
        ∈ (on_message (⟨true, true, [], []⟩ : ClientState PyCb)
        (chars "MESSAGE\ndestination:/topic/x\n\nhello\x00")).2.1 :=
  c8_unrouted_message_warns_no_raise (⟨true, true, [], []⟩ : ClientState PyCb)
    (chars "MESSAGE\ndestination:/topic/x\n\nhello\x00") (by decide) rfl

/-- Claim C9: _parse_message is total on arbitrary input strings: the
version with every index access explicit succeeds (never raises) on every
input and agrees with the pure parser - every index and split is guarded. -/
theorem c9_parse_message_total (frame : List Char) :
    parse_messageE frame = .ok (parse_message frame) := by
  unfold parse_messageE parse_message
  cases hL : splitLF frame with
  | nil => exact absurd hL (splitLF_ne_nil frame)
  | cons l0 ls =>
    simp only [listGetE, List.get?_cons_zero, List.headD_cons, List.drop_succ_cons,
      List.drop_zero]
    cases hr : (parseHeaders ls []).2 with
    | nil => simp
    | cons a t =>
      cases t with
      | nil => simp
      | cons x t2 =>
        have hlen : 1 < (a :: x :: t2).length := by simp
        simp [hlen]

/-- Claim C10: when the resolved callback itself raises, the dispatch
handler catches exactly KeyError - reporting it as the same no-callback
warning, with no exception escaping - while an exception of any other
type escapes the handler unchanged. -/
theorem c10_callback_keyerror_policy (st : ClientState PyCb) (msg : List Char)
    (cb : PyCb) (hcmd : (parse_message msg).1 = sMESSAGE)
    (hres : resolveCb st.callback_registry (parse_message msg).2.1 = some cb) :
    (cb (parse_message msg).2.2 = .error .keyError →
        (on_message st msg).2.2 = none
        ∧ Output.noCallbackWarning (destOrUnknown (parse_message msg).2.1)
            ∈ (on_message st msg).2.1)
    ∧ ∀ e : PyExn, e ≠ .keyError → cb (parse_message msg).2.2 = .error e →
        (on_message st msg).2.2 = some e := by
  have h1 : ¬((parse_message msg).1 = sCONNECTED) := by rw [hcmd]; decide
  have h2 : ¬((parse_message msg).1 = sERROR) := by rw [hcmd]; decide
  unfold on_message
  dsimp only
  rw [if_neg h1, if_pos hcmd, if_neg h1, if_neg h2]
  unfold messageBranch
  rw [hres]
  dsimp only
  constructor
  · intro hke
    rw [hke]
    refine ⟨rfl, ?_⟩
    simp
  · intro e he hce
    rw [hce]
    cases e with
    | keyError => exact absurd rfl he
    | indexError => rfl
    | other m => rfl

/-- Claim C10, witness: a registered callback that raises KeyError is
reported as the no-callback warning and nothing escapes. -/
theorem c10_callback_keyerror_policy_witness :
    (on_message (⟨true, true,
        [(chars "/topic/x", fun _ => Except.error PyExn.keyError)], []⟩ : ClientState PyCb)
        (chars "MESSAGE\ndestination:/topic/x\n\nhello\x00")).2.2 = none
    ∧ Output.noCallbackWarning (destOrUnknown
        (parse_message (chars "MESSAGE\ndestination:/topic/x\n\nhello\x00")).2.1)
        ∈ (on_message (⟨true, true,
        [(chars "/topic/x", fun _ => Except.error PyExn.keyError)], []⟩ : ClientState PyCb)
        (chars "MESSAGE\ndestination:/topic/x\n\nhello\x00")).2.1 :=
  (c10_callback_keyerror_policy (⟨true, true,
      [(chars "/topic/x", fun _ => Except.error PyExn.keyError)], []⟩ : ClientState PyCb)
    (chars "MESSAGE\ndestination:/topic/x\n\nhello\x00")
    (fun _ => Except.error PyExn.keyError) (by decide) rfl).1 rfl
